import Mathlib

/-
Verification of the bank-statement parsing engine (src/main.py, src/rules.py).

The Python source is shallowly embedded below.  Strings are modelled as Lean
String / List Char, Python floats as ℚ (every concrete value used in the
development is exactly representable in binary64, so float and rational
arithmetic agree on them), and fallible Python code (exceptions) as Option.
-/

namespace BPP

/-! ### Python string primitives used by the source -/

/-- Python whitespace class (the characters matched by str.strip and re \s
for the ASCII inputs this program handles). -/
def pyIsSpace (c : Char) : Bool :=
  c = ' ' ∨ c = '\t' ∨ c = '\n' ∨ c = '\r' ∨ c = '\x0b' ∨ c = '\x0c'

/-- str.lstrip on a character list. -/
def pyStripL (cs : List Char) : List Char := cs.dropWhile pyIsSpace

/-- str.rstrip on a character list. -/
def pyStripR (cs : List Char) : List Char := (cs.reverse.dropWhile pyIsSpace).reverse

/-- Python str.strip on a character list. -/
def pyStrip (cs : List Char) : List Char := pyStripR (pyStripL cs)

/-- Python str.strip on a String. -/
def pyStripS (s : String) : String := ⟨pyStrip s.data⟩

/-- Auxiliary scanner for splitting a text into maximal runs of
non-whitespace characters. -/
def splitWSAux : List Char → List Char → List (List Char)
  | [], acc => if acc = [] then [] else [acc.reverse]
  | c :: rest, acc =>
    if pyIsSpace c then
      if acc = [] then splitWSAux rest [] else acc.reverse :: splitWSAux rest []
    else splitWSAux rest (c :: acc)

/-- re.split of a text on whitespace runs; on already-stripped text this
agrees with Python re.split(r"\s+", text) (no empty fragments). -/
def splitWS (cs : List Char) : List (List Char) := splitWSAux cs []

/-- Index of the first occurrence of needle in hay; models Python str.find
which returns -1 when the needle is absent. -/
def pyFindAux (needle : List Char) : List Char → ℕ → Option ℕ
  | [], i => if needle.isPrefixOf ([] : List Char) then some i else none
  | c :: t, i => if needle.isPrefixOf (c :: t) then some i else pyFindAux needle t (i + 1)

/-- Python str.find, -1 when not found. -/
def pyFind (hay needle : List Char) : ℤ :=
  match pyFindAux needle hay 0 with
  | some i => (i : ℤ)
  | none => -1

/-! ### Exact rational arithmetic in kernel-reducible form

Python float arithmetic is modelled over ℚ; every concrete value in this
development is integral or has a small power-of-ten denominator, so the
float and rational results coincide.  The operations are expressed through
Rat.divInt and integer arithmetic so that closed instances evaluate by
decide; each agrees with the corresponding Mathlib operation (lemmas
qadd_eq, qsub_eq, qmul_eq, qfloor_eq below). -/

/-- Rational addition via numerators and denominators. -/
def qadd (a b : ℚ) : ℚ :=
  Rat.divInt (a.num * (b.den : ℤ) + b.num * (a.den : ℤ)) ((a.den : ℤ) * (b.den : ℤ))

/-- Rational subtraction via numerators and denominators. -/
def qsub (a b : ℚ) : ℚ :=
  Rat.divInt (a.num * (b.den : ℤ) - b.num * (a.den : ℤ)) ((a.den : ℤ) * (b.den : ℤ))

/-- Rational multiplication via numerators and denominators. -/
def qmul (a b : ℚ) : ℚ := Rat.divInt (a.num * b.num) ((a.den : ℤ) * (b.den : ℤ))

/-- Floor of a rational, as floor division of numerator by denominator. -/
def qfloor (q : ℚ) : ℤ := Int.fdiv q.num (q.den : ℤ)

/-- Embedding of an integer into ℚ. -/
def intToQ (i : ℤ) : ℚ := Rat.divInt i 1

theorem qadd_eq (a b : ℚ) : qadd a b = a + b := by
  rw [qadd]
  rw [(Rat.num_divInt_den a).symm, (Rat.num_divInt_den b).symm]
  rw [Rat.divInt_add_divInt _ _ (by exact_mod_cast a.den_nz) (by exact_mod_cast b.den_nz)]
  rw [Rat.num_divInt_den a, Rat.num_divInt_den b]

theorem qsub_eq (a b : ℚ) : qsub a b = a - b := by
  rw [qsub]
  rw [(Rat.num_divInt_den a).symm, (Rat.num_divInt_den b).symm]
  rw [Rat.divInt_sub_divInt _ _ (by exact_mod_cast a.den_nz) (by exact_mod_cast b.den_nz)]
  rw [Rat.num_divInt_den a, Rat.num_divInt_den b]

theorem qmul_eq (a b : ℚ) : qmul a b = a * b := by
  rw [qmul]
  rw [(Rat.num_divInt_den a).symm, (Rat.num_divInt_den b).symm]
  rw [Rat.divInt_mul_divInt _ _ (by exact_mod_cast a.den_nz) (by exact_mod_cast b.den_nz)]
  rw [Rat.num_divInt_den a, Rat.num_divInt_den b]

theorem qfloor_eq (q : ℚ) : qfloor q = ⌊q⌋ := by
  rw [qfloor, Rat.floor_def, Int.fdiv_eq_ediv _ (by positivity)]

theorem intToQ_eq (i : ℤ) : intToQ i = (i : ℚ) := by
  rw [intToQ, Rat.divInt_one]

/-! ### Number parsing (Python float on decimal strings) -/

/-- Value of a digit run, most significant first. -/
def digitsToNat (cs : List Char) : ℕ :=
  cs.foldl (fun a c => a * 10 + (c.toNat - 48)) 0

/-- Rational value of an integer part and a fraction part given as digit
runs: ip + fp / 10 ^ |fp|, written over a common denominator. -/
def floatOfDigitParts (ip fp : List Char) : ℚ :=
  Rat.divInt ((digitsToNat ip : ℤ) * 10 ^ fp.length + (digitsToNat fp : ℤ)) (10 ^ fp.length)

/-- Python float(s) restricted to the strings this program can feed it: an
optional leading minus followed by digits and dots (the output alphabet of
normalize_amount_string).  float raises unless there is at least one digit
and at most one dot; that failure is modelled as none. -/
def pyFloatCore (cs : List Char) : Option ℚ :=
  let sgn : ℚ := match cs with
    | '-' :: _ => -1
    | _ => 1
  let body : List Char := match cs with
    | '-' :: t => t
    | _ => cs
  if (∀ c ∈ body, c.isDigit = true ∨ c = '.') ∧ body.count '.' ≤ 1 ∧
      (∃ c ∈ body, c.isDigit = true) then
    some (qmul sgn (floatOfDigitParts (body.takeWhile (· != '.'))
      ((body.dropWhile (· != '.')).drop 1)))
  else none

/-- Python float on a String (domain as in pyFloatCore). -/
def pyFloat (s : String) : Option ℚ := pyFloatCore s.data

/-! ### Amount normalization (main.py, normalize_amount_string / safe_parse_amount)

The two rulesets configure single-character thousands and decimal
separators (" ", ".", ","), so str.replace(sep, ...) is embedded as a
filter / map over single characters. -/

/-- The two trailing-sign branches of normalize_amount_string: under
negative_trailing = "Y" a trailing "-" is stripped, under "N" a trailing
"N" is stripped; both re-strip the remainder and record negativity. -/
def stripSign (tn : String) (r0 : List Char) : Bool × List Char :=
  let s1 : Bool × List Char :=
    if tn = "Y" ∧ r0.getLast? = some '-' then (true, pyStrip r0.dropLast) else (false, r0)
  if tn = "N" ∧ s1.2.getLast? = some 'N' then (true, pyStrip s1.2.dropLast) else s1

/-- Core of normalize_amount_string on character lists: strip, handle the
trailing sign, delete the thousands separator, replace the decimal
separator by a dot, and check the guard re.fullmatch("[0-9.]+"); the
ValueError raised when the guard fails is modelled as none. -/
def normalizeCore (raw : List Char) (th dec : Char) (tn : String) : Option (List Char) :=
  let s := stripSign tn (pyStrip raw)
  let r4 := (s.2.filter (· != th)).map (fun c => if c = dec then '.' else c)
  if r4 ≠ [] ∧ ∀ c ∈ r4, c.isDigit = true ∨ c = '.' then
    some (if s.1 then '-' :: r4 else r4)
  else none

/-- main.py normalize_amount_string (exception modelled as none). -/
def normalize_amount_string (raw : String) (th dec : Char) (tn : String) : Option String :=
  (normalizeCore raw.data th dec tn).map (fun cs => ⟨cs⟩)

/-- Amount format of a ruleset (rules.py "amount_format"); the configured
separators are single characters. -/
structure AmountFormat where
  thousands_separator : Char
  decimal_separator : Char
  negative_trailing : String
deriving DecidableEq

/-- main.py safe_parse_amount: empty/absent token gives none, any exception
from normalization or float conversion gives none. -/
def safe_parse_amount (token : String) (fmt : AmountFormat) : Option ℚ :=
  if token = "" then none
  else
    match normalize_amount_string token fmt.thousands_separator
        fmt.decimal_separator fmt.negative_trailing with
    | none => none
    | some s => pyFloat s

/-! ### Python round (banker's rounding) -/

/-- Round half to even on an exact rational, as Python round does on the
exactly representable values this program produces. -/
def roundHalfEven (q : ℚ) : ℤ :=
  let f := qfloor q
  let r := qsub q (intToQ f)
  if r < Rat.divInt 1 2 then f
  else if Rat.divInt 1 2 < r then f + 1
  else if f % 2 = 0 then f else f + 1

/-- Python round(q, n) for n decimal places. -/
def pyRound (q : ℚ) (n : ℕ) : ℚ :=
  Rat.divInt (roundHalfEven (qmul q (intToQ (10 ^ n)))) (10 ^ n)

/-! ### Dates (main.py parse_date; datetime.strptime for the two formats
configured in rules.py) -/

/-- A calendar date as produced by datetime.strptime. -/
structure Date where
  year : ℤ
  month : ℕ
  day : ℕ
deriving DecidableEq

/-- Gregorian leap-year rule as used by datetime. -/
def isLeap (y : ℤ) : Bool := y % 4 = 0 ∧ (y % 100 ≠ 0 ∨ y % 400 = 0)

/-- Length of a month, as validated by the datetime constructor. -/
def daysInMonth (y : ℤ) (m : ℕ) : ℕ :=
  if m = 2 then (if isLeap y then 29 else 28)
  else if m = 4 ∨ m = 6 ∨ m = 9 ∨ m = 11 then 30 else 31

/-- strptime day/month field: one or two digits (the %d / %m patterns). -/
def parseField12 (cs : List Char) : Option ℕ :=
  if (cs.length = 1 ∨ cs.length = 2) ∧ ∀ c ∈ cs, c.isDigit = true then
    some (digitsToNat cs)
  else none

/-- datetime.strptime(token, "%d/%m/%Y"): day and month of one or two
digits, a four-digit year, then validation of the day against the month
(ValueError is modelled as none). -/
def strptimeDMY (cs : List Char) : Option Date :=
  match cs.splitOn '/' with
  | [ds, ms, ys] =>
    match parseField12 ds, parseField12 ms with
    | some d, some m =>
      if (ys.length = 4 ∧ ∀ c ∈ ys, c.isDigit = true) ∧
          1 ≤ d ∧ d ≤ 31 ∧ 1 ≤ m ∧ m ≤ 12 ∧ d ≤ daysInMonth (digitsToNat ys : ℤ) m then
        some ⟨(digitsToNat ys : ℤ), m, d⟩
      else none
    | _, _ => none
  | _ => none

/-- datetime.strptime(token, "%m %d"): month, whitespace, day; the missing
year defaults to 1900, and the day is validated against that year. -/
def strptimeMD (cs : List Char) : Option Date :=
  let ms := cs.takeWhile (fun c => !(pyIsSpace c))
  let rest := cs.dropWhile (fun c => !(pyIsSpace c))
  let sp := rest.takeWhile pyIsSpace
  let ds := rest.dropWhile pyIsSpace
  match parseField12 ms, parseField12 ds with
  | some m, some d =>
    if sp ≠ [] ∧ 1 ≤ m ∧ m ≤ 12 ∧ 1 ≤ d ∧ d ≤ 31 ∧ d ≤ daysInMonth 1900 m then
      some ⟨1900, m, d⟩
    else none
  | _, _ => none

/-- strptime dispatch for the format strings appearing in PARSING_RULES:
"%d/%m/%Y" (ABSA) and "%m %d" (Standard Bank).  No other format occurs in
the registry; an unknown format parses nothing. -/
def strptimeFmt (fmt : String) (token : String) : Option Date :=
  if fmt = "%d/%m/%Y" then strptimeDMY token.data
  else if fmt = "%m %d" then strptimeMD token.data
  else none

/-- Date-format entry of a ruleset (rules.py "date_format"). -/
structure DateRule where
  formats : List String
  year_optional : String
deriving DecidableEq

/-- One iteration of the loop in main.py parse_date: strptime with one
format and, under year_optional = "Y", dt.replace(year=fallback_year)
whose ValueError (invalid day or out-of-range year) is modelled as none
so that the next format is tried. -/
def parseOneFormat (fmt : String) (token : String) (yo : String) (fy : ℤ) : Option Date :=
  match strptimeFmt fmt token with
  | none => none
  | some d =>
    if yo = "Y" then
      if 1 ≤ fy ∧ fy ≤ 9999 ∧ d.day ≤ daysInMonth fy d.month then
        some ⟨fy, d.month, d.day⟩
      else none
    else some d

/-- Format list traversal of main.py parse_date. -/
def parseDateAux (fmts : List String) (token : String) (yo : String) (fy : ℤ) : Option Date :=
  match fmts with
  | [] => none
  | f :: fs =>
    match parseOneFormat f token yo fy with
    | some d => some d
    | none => parseDateAux fs token yo fy

/-- main.py parse_date: tries each configured format in order; the final
"bad date token" ValueError is modelled as none. -/
def parse_date (token : String) (rule : DateRule) (fallbackYear : ℤ) : Option Date :=
  parseDateAux rule.formats token rule.year_optional fallbackYear

/-- strftime("%Y-%m-%d") zero padding for a field of at most two digits. -/
def pad2 (n : ℕ) : String := if n < 10 then "0" ++ toString n else toString n

/-- strftime("%Y-%m-%d") zero padding of the year to four digits. -/
def pad4 (y : ℤ) : String :=
  let n := y.toNat
  if n < 10 then "000" ++ toString n
  else if n < 100 then "00" ++ toString n
  else if n < 1000 then "0" ++ toString n
  else toString n

/-- dt.strftime("%Y-%m-%d") as used when a transaction is emitted. -/
def formatISO (d : Date) : String := pad4 d.year ++ "-" ++ pad2 d.month ++ "-" ++ pad2 d.day

/-! ### Rulesets (rules.py PARSING_RULES) -/

/-- Column zones of a ruleset: x-coordinate spans for the four fields. -/
structure ColumnZones where
  description : ℚ × ℚ
  debit : ℚ × ℚ
  credit : ℚ × ℚ
  balance : ℚ × ℚ

/-- One ruleset entry of rules.py. -/
structure Rule where
  column_zones : ColumnZones
  amount_format : AmountFormat
  date_format : DateRule
  date_x_threshold : ℚ

/-- rules.py PARSING_RULES["ABSA_CHEQUE_ACCOUNT_STATEMENT"]. -/
def absaRule : Rule where
  column_zones := ⟨(95, 305), (310, 390), (395, 470), (475, 999)⟩
  amount_format := ⟨' ', '.', "N"⟩
  date_format := ⟨["%d/%m/%Y"], "N"⟩
  date_x_threshold := 95

/-- rules.py PARSING_RULES["STANDARD_BANK_BUSINESS_CURRENT_ACCOUNT"]. -/
def stdBankRule : Rule where
  column_zones := ⟨(0, 460), (465, 540), (545, 630), (635, 999)⟩
  amount_format := ⟨'.', ',', "Y"⟩
  date_format := ⟨["%m %d"], "Y"⟩
  date_x_threshold := 120

/-- The registry lookup PARSING_RULES[rule_name]. -/
def PARSING_RULES (name : String) : Option Rule :=
  if name = "ABSA_CHEQUE_ACCOUNT_STATEMENT" then some absaRule
  else if name = "STANDARD_BANK_BUSINESS_CURRENT_ACCOUNT" then some stdBankRule
  else none

/-! ### Ruleset detection (main.py detect_rule) -/

/-- Substring search, modelling the Python "in" operator on str. -/
def containsSub (hay needle : List Char) : Bool :=
  match hay with
  | [] => needle.isPrefixOf ([] : List Char)
  | c :: t => needle.isPrefixOf (c :: t) || containsSub t needle

/-- The uppercased " ".join(first_page) that detect_rule matches against
(str.upper on the ASCII content these statements carry). -/
def upperJoin (lines : List String) : List Char :=
  (String.intercalate " " lines).toUpper.data

/-- main.py detect_rule; the HTTPException is modelled as Except.error. -/
def detect_rule (first_page : List String) : Except String String :=
  let joined := upperJoin first_page
  if containsSub joined "ABSA".data && containsSub joined "CHEQUE ACCOUNT".data then
    Except.ok "ABSA_CHEQUE_ACCOUNT_STATEMENT"
  else if containsSub joined "STANDARD BANK".data &&
      containsSub joined "BUSINESS CURRENT ACCOUNT".data then
    Except.ok "STANDARD_BANK_BUSINESS_CURRENT_ACCOUNT"
  else Except.error "Unsupported or undetected bank/account type"

/-! ### Column extraction (main.py combine_column_values / flush_line) -/

/-- main.py combine_column_values: the words of the x-map whose x falls in
the inclusive zone, joined by single spaces. -/
def combine_column_values (xmap : List (ℚ × String)) (zone : ℚ × ℚ) : String :=
  let vals := (xmap.filter (fun p => decide (zone.1 ≤ p.1) && decide (p.1 ≤ zone.2))).map
    Prod.snd
  if vals = [] then "" else String.intercalate " " vals

/-- Stable insertion of an item into a list sorted by x. -/
def insertByX (p : ℚ × String) : List (ℚ × String) → List (ℚ × String)
  | [] => [p]
  | q :: rest => if q.1 < p.1 then q :: insertByX p rest else p :: q :: rest

/-- Python sorted(items, key=lambda t: t[0]) (stable sort by x). -/
def sortByX : List (ℚ × String) → List (ℚ × String)
  | [] => []
  | p :: rest => insertByX p (sortByX rest)

/-- The date-token selection of main.py flush_line, line 112:
next((w for x, w in xmap if x >= date_x_thresh), "") — the first word at
or to the right of the threshold. -/
def date_token_of (thresh : ℚ) (xmap : List (ℚ × String)) : String :=
  match xmap.find? (fun p => decide (thresh ≤ p.1)) with
  | some p => p.2
  | none => ""

/-- A zone's accumulated string: combine_column_values followed by the
.strip() applied in flush_line. -/
def zoneString (xmap : List (ℚ × String)) (zone : ℚ × ℚ) : String :=
  pyStripS (combine_column_values xmap zone)

/-- Python truthiness of an optional float: None and 0.0 are falsy, as in
the header/footer skip condition `not debit and not credit`. -/
def falsy : Option ℚ → Bool
  | none => true
  | some q => q = 0

/-- The transaction record emitted by flush_line.  Its fields are exactly
the keys of the dict built at main.py lines 128-133: there is no
balance_diff_error, calculated_balance or type field. -/
structure Transaction where
  date : String
  description : String
  amount : ℚ
  balance : Option ℚ
deriving DecidableEq

/-- The amount written by flush_line:
credit if credit is not None else -debit if debit is not None else 0.0. -/
def printedAmountX (rule : Rule) (xmap : List (ℚ × String)) : ℚ :=
  match safe_parse_amount (zoneString xmap rule.column_zones.credit) rule.amount_format with
  | some c => c
  | none =>
    match safe_parse_amount (zoneString xmap rule.column_zones.debit) rule.amount_format with
    | some d => -d
    | none => 0

/-- main.py flush_line for one line's accumulated (x, word) items: sorts
the x-map, extracts the zone strings, skips header/footer lines (empty
description, or debit and credit both falsy), parses the date token, and
otherwise emits the transaction dict; a skip is modelled as none. -/
def flush_line (rule : Rule) (fy : ℤ) (items : List (ℚ × String)) : Option Transaction :=
  if items = [] then none
  else
    let xmap := sortByX items
    if zoneString xmap rule.column_zones.description = "" ∨
        (falsy (safe_parse_amount (zoneString xmap rule.column_zones.debit)
            rule.amount_format) = true ∧
         falsy (safe_parse_amount (zoneString xmap rule.column_zones.credit)
            rule.amount_format) = true) then none
    else
      match parse_date (date_token_of rule.date_x_threshold xmap) rule.date_format fy with
      | none => none
      | some d =>
        some ⟨formatISO d, zoneString xmap rule.column_zones.description,
          printedAmountX rule xmap,
          safe_parse_amount (zoneString xmap rule.column_zones.balance) rule.amount_format⟩

/-! ### Page iteration (main.py parse_pdf_to_transactions)

A page is the list of its LTTextLineHorizontal objects, each carried as
its x0, y0 and text; the statement year extracted by extract_year_from_doc
is threaded in as the parameter fy. -/

/-- One pdfminer text object: x0, y0 and its text. -/
structure TextObj where
  x0 : ℚ
  y0 : ℚ
  text : String

/-- The (x, word) items one text object contributes: the stripped text is
split on whitespace and each word is placed at
obj.x0 + text.find(word) * 1.0. -/
def lineItemsOfObj (obj : TextObj) : List (ℚ × String) :=
  let t := pyStrip obj.text.data
  if t = [] then []
  else (splitWS t).map (fun w => (qadd obj.x0 (intToQ (pyFind t w)), (⟨w⟩ : String)))

/-- The loop state of parse_pdf_to_transactions: current_line_items,
current_y and the transactions accumulated so far. -/
structure LoopState where
  items : List (ℚ × String)
  curY : Option ℚ
  acc : List Transaction

/-- The effect of one flush_line call on the transaction list: append the
emitted transaction, if any. -/
def flushAppend (rule : Rule) (fy : ℤ) (items : List (ℚ × String))
    (acc : List Transaction) : List Transaction :=
  match flush_line rule fy items with
  | some t => acc ++ [t]
  | none => acc

/-- Processing of one text object: round its y to one decimal, flush the
current line when the y jump exceeds 2, then append the object's words. -/
def stepObj (rule : Rule) (fy : ℤ) (st : LoopState) (obj : TextObj) : LoopState :=
  let y := pyRound obj.y0 1
  let cy := st.curY.getD y
  if 2 < |qsub y cy| then
    ⟨lineItemsOfObj obj, some y, flushAppend rule fy st.items st.acc⟩
  else ⟨st.items ++ lineItemsOfObj obj, some cy, st.acc⟩

/-- The final flush_line call after a page's objects are exhausted. -/
def finishState (rule : Rule) (fy : ℤ) (st : LoopState) : List Transaction :=
  flushAppend rule fy st.items st.acc

/-- The per-page loop run from a given state. -/
def runFrom (rule : Rule) (fy : ℤ) (objs : List TextObj) (st : LoopState) : List Transaction :=
  finishState rule fy (objs.foldl (stepObj rule fy) st)

/-- One page of parse_pdf_to_transactions. -/
def processPage (rule : Rule) (fy : ℤ) (page : List TextObj) : List Transaction :=
  runFrom rule fy page ⟨[], none, []⟩

/-- main.py parse_pdf_to_transactions over the pages of a document, with
the ruleset already looked up and the statement year fy already extracted
from the first page. -/
def parse_pdf_to_transactions (rule : Rule) (fy : ℤ) (doc : List (List TextObj)) :
    List Transaction :=
  (doc.map (processPage rule fy)).flatten

/-! ### Visual-line reconstruction, stated independently of the loop -/

/-- Grouping of the remaining objects into visual lines: an object whose
rounded y departs from the current line's anchor by more than 2 starts a
new line anchored at its own y. -/
def buildLinesAux : List TextObj → ℚ → List (ℚ × String) → List (List (ℚ × String))
  | [], _, cur => [cur]
  | obj :: rest, anchor, cur =>
    let y := pyRound obj.y0 1
    if 2 < |qsub y anchor| then cur :: buildLinesAux rest y (lineItemsOfObj obj)
    else buildLinesAux rest anchor (cur ++ lineItemsOfObj obj)

/-- The visual lines of a page, as lists of (x, word) items. -/
def buildLines : List TextObj → List (List (ℚ × String))
  | [] => []
  | obj :: rest => buildLinesAux rest (pyRound obj.y0 1) (lineItemsOfObj obj)

/-! ### Example documents used by the closed theorems -/

/-- A one-page ABSA document with two visual lines.  Its two blocks carry
printed balances 1000.00 and 900.00, but the second block's printed debit
is 150.00, so the printed amount (-150.00) disagrees with the balance
delta (-100.00) by far more than the 1-cent tolerance. -/
def exDoc : List (List TextObj) :=
  [[⟨100, 700, "01/02/2024"⟩, ⟨150, 700, "Fee"⟩, ⟨330, 700, "50.00"⟩, ⟨500, 700, "1000.00"⟩,
    ⟨100, 650, "02/02/2024"⟩, ⟨150, 650, "Payment"⟩, ⟨330, 650, "150.00"⟩,
    ⟨500, 650, "900.00"⟩]]

/-- The transaction emitted for exDoc's first line. -/
def exT0 : Transaction := ⟨"2024-02-01", "01/02/2024 Fee", -50, some 1000⟩

/-- The transaction emitted for exDoc's second line. -/
def exT1 : Transaction := ⟨"2024-02-02", "02/02/2024 Payment", -150, some 900⟩

/-- The x-map items of exDoc's first visual line. -/
def exLine1 : List (ℚ × String) :=
  [(100, "01/02/2024"), (150, "Fee"), (330, "50.00"), (500, "1000.00")]

/-! ### Claims -/

/-- Bool substring search agrees with the infix relation. -/
theorem containsSub_iff (hay needle : List Char) :
    containsSub hay needle = true ↔ needle <:+: hay := by
  induction hay with
  | nil =>
    simp [containsSub, List.isPrefixOf_iff_prefix]
  | cons c t ih =>
    rw [containsSub, Bool.or_eq_true, List.isPrefixOf_iff_prefix, ih, List.infix_cons_iff]

/-- C5: detection succeeds exactly when both keywords of one of the two
configured pairs occur (case-insensitively, via the uppercased join of the
first-page lines) as substrings; otherwise detect_rule raises the
"Unsupported or undetected bank/account type" error instead of returning a
ruleset key. -/
theorem detect_rule_spec (lines : List String) :
    ((∃ k, detect_rule lines = Except.ok k) ↔
      (("ABSA".data <:+: upperJoin lines) ∧ ("CHEQUE ACCOUNT".data <:+: upperJoin lines)) ∨
      (("STANDARD BANK".data <:+: upperJoin lines) ∧
        ("BUSINESS CURRENT ACCOUNT".data <:+: upperJoin lines))) ∧
    ((∃ k, detect_rule lines = Except.ok k) ∨
      detect_rule lines = Except.error "Unsupported or undetected bank/account type") := by
  simp only [detect_rule]
  split_ifs with h1 h2
  · rw [Bool.and_eq_true, containsSub_iff, containsSub_iff] at h1
    exact ⟨⟨fun _ => Or.inl h1, fun _ => ⟨_, rfl⟩⟩, Or.inl ⟨_, rfl⟩⟩
  · rw [Bool.and_eq_true, containsSub_iff, containsSub_iff] at h2
    exact ⟨⟨fun _ => Or.inr h2, fun _ => ⟨_, rfl⟩⟩, Or.inl ⟨_, rfl⟩⟩
  · constructor
    · constructor
      · rintro ⟨k, hk⟩
        exact absurd hk (by simp)
      · rintro (⟨p, q⟩ | ⟨p, q⟩)
        · exact absurd (Bool.and_eq_true _ _ |>.mpr
            ⟨(containsSub_iff _ _).mpr p, (containsSub_iff _ _).mpr q⟩) h1
        · exact absurd (Bool.and_eq_true _ _ |>.mpr
            ⟨(containsSub_iff _ _).mpr p, (containsSub_iff _ _).mpr q⟩) h2
    · exact Or.inr rfl

/-- C6: normalization with thousands separator ".", decimal separator ","
and trailing negative enabled maps "800,00-" to "-800.00". -/
theorem normalize_trailing_neg_roundtrip :
    normalize_amount_string "800,00-" '.' ',' "Y" = some "-800.00" := by decide

/-- C7: with the space-thousands dot-decimal (ABSA) format, "1 234.56"
normalizes to "1234.56" and re-normalizing "1234.56" leaves it unchanged. -/
theorem normalize_idempotent_example :
    normalize_amount_string "1 234.56" ' ' '.' "N" = some "1234.56" ∧
    normalize_amount_string "1234.56" ' ' '.' "N" = some "1234.56" := by
  exact ⟨by decide, by decide⟩

/-- C8: with the Standard Bank date rule (pattern "%m %d", year optional)
and fallback year 2025, the token "03 22" parses to 2025-03-22. -/
theorem parse_date_fallback_year :
    parse_date "03 22" stdBankRule.date_format 2025 = some ⟨2025, 3, 22⟩ := by decide

/-- C3: the date token that flush_line uses is the first token at or to
the RIGHT of date_x_threshold, not one left of it: on a line whose leading
token (a well-formed date at x = 50, left of ABSA's threshold 95) is
followed by description text at x = 100, the token picked as the date is
"Pay", and the line is consequently dropped because "Pay" parses as no
date.  This contradicts rules.py's own comments ("Anything past 120 pt
definitely isn't a date") and the spec. -/
theorem date_token_selected_right_of_threshold :
    date_token_of absaRule.date_x_threshold
      (sortByX [(50, "22/03/2025"), (100, "Pay"), (330, "50.00")]) = "Pay" ∧
    ((50 : ℚ) < absaRule.date_x_threshold ∧ absaRule.date_x_threshold ≤ 100) ∧
    flush_line absaRule 2024 [(50, "22/03/2025"), (100, "Pay"), (330, "50.00")] = none := by
  exact ⟨by decide, by decide, by decide⟩

/-- C9: under either configured ruleset format, any token in which a minus
sign survives the trailing-sign handling (i.e. a minus anywhere other than
a trailing "-" stripped under negative_trailing = "Y") fails the numeric
guard, so safe_parse_amount treats the field as absent; in particular a
leading-minus amount is never parsed to a negative number. -/
theorem leading_minus_rejected (fmt : AmountFormat) (token : String)
    (hfmt : fmt = absaRule.amount_format ∨ fmt = stdBankRule.amount_format)
    (hm : '-' ∈ (stripSign fmt.negative_trailing (pyStrip token.data)).2) :
    safe_parse_amount token fmt = none := by
  have key : ∀ th dec : Char, th ≠ '-' → dec ≠ '-' →
      normalizeCore token.data th dec fmt.negative_trailing = none := by
    intro th dec hth hdec
    unfold normalizeCore
    rw [if_neg]
    rintro ⟨-, hall⟩
    have h4 : '-' ∈ ((stripSign fmt.negative_trailing (pyStrip token.data)).2.filter
        (· != th)).map (fun c => if c = dec then '.' else c) := by
      refine List.mem_map.mpr ⟨'-', List.mem_filter.mpr ⟨hm, ?_⟩, ?_⟩
      · simp [bne_iff_ne, Ne.symm hth]
      · simp [Ne.symm hdec]
    have := hall '-' h4
    simp at this
  unfold safe_parse_amount
  by_cases htok : token = ""
  · simp [htok]
  · rw [if_neg htok]
    unfold normalize_amount_string
    rcases hfmt with h | h <;> subst h <;> rw [key _ _ (by decide) (by decide)] <;> rfl

/-- Witness for C9 at the leading-minus token "-123.45" under the ABSA
format. -/
theorem leading_minus_rejected_witness :
    ('-' ∈ (stripSign absaRule.amount_format.negative_trailing
      (pyStrip "-123.45".data)).2) ∧
    safe_parse_amount "-123.45" absaRule.amount_format = none :=
  ⟨by decide,
    leading_minus_rejected absaRule.amount_format "-123.45" (Or.inl rfl) (by decide)⟩

/-- The thousands/decimal-separator replacement and the numeric guard of
normalize_amount_string, without any trailing-sign handling; used to state
what happens to the remainder of a token whose trailing "N" was stripped. -/
def unsignedNorm (cs : List Char) (th dec : Char) : Option (List Char) :=
  let r4 := ((pyStrip cs).filter (· != th)).map (fun c => if c = dec then '.' else c)
  if r4 ≠ [] ∧ ∀ c ∈ r4, c.isDigit = true ∨ c = '.' then some r4 else none

/-- C10: under negative_trailing = "N" (the ABSA format), a token whose
stripped form ends in "N" is treated as negative: the trailing "N" is
stripped and, when the remainder passes the numeric guard, a minus sign is
prepended to its normalization. -/
theorem trailing_N_negative (th dec : Char) (token : String) (u : List Char)
    (h : pyStrip token.data = u ++ ['N']) :
    normalizeCore token.data th dec "N" =
      Option.map (List.cons '-') (unsignedNorm u th dec) := by
  have hs : stripSign "N" (u ++ ['N']) = (true, pyStrip u) := by
    simp +decide [stripSign, List.getLast?_concat, List.dropLast_concat]
  unfold normalizeCore unsignedNorm
  rw [h, hs]
  dsimp only
  split_ifs with hg ht
  · rfl
  · exact absurd rfl ht
  · rfl

/-- Witness for C10 at the token "123.45N" with the ABSA separators; the
final conjunct shows the claim's concrete example "123.45N" → "-123.45". -/
theorem trailing_N_negative_witness :
    (pyStrip "123.45N".data = "123.45".data ++ ['N']) ∧
    normalizeCore "123.45N".data ' ' '.' "N" =
      Option.map (List.cons '-') (unsignedNorm "123.45".data ' ' '.') ∧
    normalize_amount_string "123.45N" ' ' '.' "N" = some "-123.45" :=
  ⟨by decide, trailing_N_negative ' ' '.' "123.45N" "123.45".data (by decide), by decide⟩

/-- C4 (amended): combine_column_values joins the tokens of a zone with
single spaces — for every pair of tokens inside a zone the accumulated
string is the first word, a space, then the second word; it never
concatenates without a separator, for numeric zones included. -/
theorem combine_space_joins (lo hi x1 x2 : ℚ) (w1 w2 : String)
    (h1 : lo ≤ x1) (h2 : x1 ≤ hi) (h3 : lo ≤ x2) (h4 : x2 ≤ hi) :
    combine_column_values [(x1, w1), (x2, w2)] (lo, hi) = w1 ++ " " ++ w2 := by
  unfold combine_column_values
  simp only [List.filter, decide_eq_true_eq, h1, h2, h3, h4, Bool.and_self, List.map_cons,
    List.map_nil]
  rw [if_neg (by simp)]
  rfl

/-- Witness for C4's amended claim inside the ABSA balance zone. -/
theorem combine_space_joins_witness :
    ((475 : ℚ) ≤ 480 ∧ (480 : ℚ) ≤ 999 ∧ (475 : ℚ) ≤ 500 ∧ (500 : ℚ) ≤ 999) ∧
    combine_column_values [(480, "1"), (500, "234,56")] (475, 999) = "1" ++ " " ++ "234,56" :=
  ⟨⟨by decide, by decide, by decide, by decide⟩,
    combine_space_joins 475 999 480 500 "1" "234,56" (by decide) (by decide) (by decide)
      (by decide)⟩

/-- C4 counterexample: two tokens in the balance zone are joined as
"1 234,56", with a space, not concatenated to "1234,56" as the claim
states. -/
theorem combine_not_plain_concat :
    combine_column_values [(480, "1"), (500, "234,56")] (475, 999) = "1 234,56" ∧
    "1 234,56" ≠ "1234,56" :=
  ⟨by decide, by decide⟩

/-- C1 (amended): no reconciliation ever touches an emitted transaction:
whenever flush_line emits one, its amount is exactly the printed-column
amount (credit if present, else minus debit, else 0.0) and its balance is
exactly the parsed balance column; the Transaction record has no
balance_diff_error field and no running balance exists to override
anything. -/
theorem flush_line_printed_only (rule : Rule) (fy : ℤ) (items : List (ℚ × String))
    (t : Transaction) (h : flush_line rule fy items = some t) :
    t.amount = printedAmountX rule (sortByX items) ∧
    t.balance = safe_parse_amount (zoneString (sortByX items) rule.column_zones.balance)
      rule.amount_format := by
  unfold flush_line at h
  dsimp only at h
  split_ifs at h
  split at h
  · exact Option.noConfusion h
  · cases h
    exact ⟨rfl, rfl⟩

set_option maxRecDepth 40000

/-- Witness for C1's amended claim on exDoc's first line. -/
theorem flush_line_printed_only_witness :
    flush_line absaRule 2024 exLine1 = some exT0 ∧
    (exT0.amount = printedAmountX absaRule (sortByX exLine1) ∧
     exT0.balance = safe_parse_amount (zoneString (sortByX exLine1)
       absaRule.column_zones.balance) absaRule.amount_format) :=
  ⟨by decide, flush_line_printed_only absaRule 2024 exLine1 exT0 (by decide)⟩

/-- C1 counterexample: on exDoc the second block's printed balance (900)
disagrees with the printed amount (-150.00) against the previous balance
(1000): expected_amount = round(900 - 1000, 2) = -100.00 and
|expected - amount| = 50 > 0.01, yet the emitted transaction keeps the
printed amount -150.00 — no override to expected_amount happens and no
diagnostic is recorded (the emitted record has no balance_diff_error
field at all). -/
theorem no_override_counterexample :
    parse_pdf_to_transactions absaRule 2024 exDoc = [exT0, exT1] ∧
    exT0.balance = some 1000 ∧ exT1.balance = some 900 ∧
    pyRound ((900 : ℚ) - 1000) 2 = -100 ∧
    |(-100 : ℚ) - exT1.amount| > 1/100 ∧
    exT1.amount ≠ -100 := by
  refine ⟨by decide, by decide, by decide, ?_, ?_, by decide⟩
  · rw [show ((900 : ℚ) - 1000) = -100 by norm_num]
    decide
  · rw [show exT1.amount = -150 by decide]
    norm_num

/-- flushAppend written with Option.toList. -/
theorem flushAppend_eq (rule : Rule) (fy : ℤ) (items : List (ℚ × String))
    (acc : List Transaction) :
    flushAppend rule fy items acc = acc ++ (flush_line rule fy items).toList := by
  unfold flushAppend
  cases h : flush_line rule fy items <;> simp

/-- Unfolding equation of buildLinesAux on nil. -/
theorem buildLinesAux_nil (anchor : ℚ) (cur : List (ℚ × String)) :
    buildLinesAux [] anchor cur = [cur] := rfl

/-- Unfolding equation of buildLinesAux on cons. -/
theorem buildLinesAux_cons (obj : TextObj) (rest : List TextObj) (anchor : ℚ)
    (cur : List (ℚ × String)) :
    buildLinesAux (obj :: rest) anchor cur =
      if 2 < |qsub (pyRound obj.y0 1) anchor| then
        cur :: buildLinesAux rest (pyRound obj.y0 1) (lineItemsOfObj obj)
      else buildLinesAux rest anchor (cur ++ lineItemsOfObj obj) := rfl

/-- The page loop run from any reachable state equals flushing the
stateless visual-line grouping. -/
theorem runFrom_eq (rule : Rule) (fy : ℤ) (objs : List TextObj) :
    ∀ (anchor : ℚ) (cur : List (ℚ × String)) (acc : List Transaction),
    runFrom rule fy objs ⟨cur, some anchor, acc⟩ =
      acc ++ (buildLinesAux objs anchor cur).filterMap (flush_line rule fy) := by
  induction objs with
  | nil =>
    intro anchor cur acc
    show flushAppend rule fy cur acc = _
    rw [flushAppend_eq, buildLinesAux_nil]
    cases h : flush_line rule fy cur <;> simp [h, List.filterMap]
  | cons obj rest ih =>
    intro anchor cur acc
    show runFrom rule fy rest (stepObj rule fy ⟨cur, some anchor, acc⟩ obj) = _
    unfold stepObj
    dsimp only [Option.getD_some]
    by_cases hy : 2 < |qsub (pyRound obj.y0 1) anchor|
    · rw [if_pos hy, ih, flushAppend_eq, buildLinesAux_cons, if_pos hy]
      cases h : flush_line rule fy cur <;>
        simp [h, List.filterMap_cons, List.append_assoc]
    · rw [if_neg hy, ih, buildLinesAux_cons, if_neg hy]

/-- One page of the loop equals flushing its reconstructed visual lines. -/
theorem processPage_eq (rule : Rule) (fy : ℤ) (page : List TextObj) :
    processPage rule fy page = (buildLines page).filterMap (flush_line rule fy) := by
  cases page with
  | nil =>
    show flushAppend rule fy [] [] = _
    rw [flushAppend_eq]
    simp [flush_line, buildLines]
  | cons obj rest =>
    show runFrom rule fy rest (stepObj rule fy ⟨[], none, []⟩ obj) = _
    unfold stepObj
    dsimp only [Option.getD_none]
    have h0 : ¬ 2 < |qsub (pyRound obj.y0 1) (pyRound obj.y0 1)| := by
      rw [qsub_eq, sub_self, abs_zero]
      norm_num
    rw [if_neg h0, runFrom_eq]
    unfold buildLines
    simp

/-- C2 (amended): the parser maintains no running balance or any other
state across transactions — the output is exactly the independent
per-visual-line flush over every page, so nothing links one transaction's
balance to the next one's amount (and exDoc below witnesses that the
claimed adjacency invariant indeed fails on the emitted list). -/
theorem parse_is_per_line (rule : Rule) (fy : ℤ) (doc : List (List TextObj)) :
    parse_pdf_to_transactions rule fy doc =
      (doc.map (fun page => (buildLines page).filterMap (flush_line rule fy))).flatten := by
  unfold parse_pdf_to_transactions
  have hpp : processPage rule fy = fun page =>
      (buildLines page).filterMap (flush_line rule fy) :=
    funext (processPage_eq rule fy)
  rw [hpp]

/-- C2 counterexample: on exDoc the final emitted pair has
round(balance[1] - balance[0], 2) = -100.00 while amount[1] = -150.00, so
the reconciliation invariant does not hold of the parser's output (the
code keeps no running balance at all). -/
theorem balance_invariant_counterexample :
    parse_pdf_to_transactions absaRule 2024 exDoc = [exT0, exT1] ∧
    exT0.balance = some 1000 ∧ exT1.balance = some 900 ∧
    pyRound ((900 : ℚ) - 1000) 2 ≠ exT1.amount := by
  refine ⟨by decide, by decide, by decide, ?_⟩
  rw [show ((900 : ℚ) - 1000) = -100 by norm_num]
  decide

end BPP
